import Mathlib

/-!
Verification development for the NewServer repository (an online-textbook
server). The implementation modules (`runestone.api.endpoints`,
`runestone.model`, `runestone.book_server.server`) are not present under
`src/`; only their unit tests are (`src/tests/test_all.py`,
`src/test_book_server.py`). The definitions below are therefore modelled
from the specification (spec.md), constrained by the repository's own unit
tests wherever they pin exact behavior. Each definition's doc comment says
which missing piece of code it stands for.
-/

namespace NewServer

/-- Modelled from the spec: a request's query/form parameters (the missing
routing layer hands the endpoint a name-to-value mapping). Modelled as an
association list; `lookupParam` is the parameter lookup. -/
def lookupParam (params : List (String × String)) (name : String) : Option String :=
  (params.find? (fun p => p.1 = name)).map (fun p => p.2)

/-! ## Type coercion layer (spec 4.1), missing module `runestone.api.endpoints` -/

/-- Modelled from the spec: string coercion against a column with maximum
length `maxLen` (spec 4.1); the exact failure message is pinned by
`test_all.py` `TestRunestoneApi.test_5` and `test_2_1`. -/
def coerce_string (name : String) (maxLen : Nat) (s : String) : Except String String :=
  if s.length ≤ maxLen then Except.ok s
  else Except.error ("Argument " ++ name ++ " length " ++ toString s.length ++
    " exceeds the maximum length of " ++ toString maxLen ++ ".")

/-- Modelled from the spec: tri-state boolean coercion (spec 4.1): the
case-sensitive tokens true/T, false/F, and the empty string for undefined;
the failure message is pinned by `TestRunestoneApi.test_5`. -/
def coerce_bool (name : String) (s : String) : Except String (Option Bool) :=
  if s = "true" ∨ s = "T" then Except.ok (some true)
  else if s = "false" ∨ s = "F" then Except.ok (some false)
  else if s = "" then Except.ok none
  else Except.error ("Argument " ++ name ++ " supplied an invalid boolean value of " ++ s ++ ".")

/-- Auxiliary digit accumulator for `parseInt`. -/
def parseDigitsAux : List Char → Nat → Option Nat
  | [], acc => some acc
  | c :: cs, acc =>
    if c.isDigit then parseDigitsAux cs (acc * 10 + (c.toNat - '0'.toNat))
    else none

/-- Parse a nonempty all-digit character list. -/
def parseDigits : List Char → Option Nat
  | [] => none
  | cs => parseDigitsAux cs 0

/-- Modelled from the spec: integer parsing using standard integer literal
rules (spec 4.1): an optional sign followed by one or more decimal digits. -/
def parseInt (s : String) : Option Int :=
  match s.data with
  | '-' :: cs => (parseDigits cs).map (fun n => -(n : Int))
  | '+' :: cs => (parseDigits cs).map (fun n => (n : Int))
  | cs => (parseDigits cs).map (fun n => (n : Int))

/-- Modelled from the spec: integer coercion (spec 4.1); the failure message
is pinned by `TestRunestoneApi.test_5`. -/
def coerce_int (name : String) (s : String) : Except String Int :=
  match parseInt s with
  | some n => Except.ok n
  | none => Except.error ("Unable to convert argument " ++ name ++ " to an integer.")

/-! ## Generic parameter validator (spec 4.2), missing `generic_validator` -/

/-- Modelled from the spec: the error specification taken by the generic
validator — either a literal message string or a function computing the
message from the raw value (spec 4.2 and 9). -/
inductive ErrorSpec where
  | literal : String → ErrorSpec
  | computed : (String → String) → ErrorSpec

/-- Message produced by an `ErrorSpec` for a given raw value. -/
def errorMessage : ErrorSpec → String → String
  | ErrorSpec.literal s, _ => s
  | ErrorSpec.computed f, v => f v

/-- Modelled from the spec: `generic_validator(name, validator, error_spec,
default)` of the missing `runestone.api.endpoints` (spec 4.2). The
predicate/coercion callback is modelled as `String → Option α`, where `none`
stands for a false-y return or a raised exception; validation failure
(Python's `RequestValidationFailure`) is the `Except.error` branch carrying
the message. When no predicate is supplied the code returns the raw value —
that is the instance `α := String`, `v := fun s => some s`. -/
def generic_validator {α : Type} (params : List (String × String)) (name : String)
    (v : String → Option α) (espec : ErrorSpec) (dflt : Option α) : Except String α :=
  match lookupParam params name with
  | none =>
    match dflt with
    | none => Except.error ("Missing argument " ++ name ++ ".")
    | some d => Except.ok d
  | some raw =>
    match v raw with
    | none => Except.error (errorMessage espec raw)
    | some a => Except.ok a

/-! ## SQL-column validator (spec 4.3), missing `sql_validator` -/

/-- Modelled from the spec: `sql_validator(name, column)` of the missing
`runestone.api.endpoints`, specialized to a string column of maximum length
`maxLen` (spec 4.3): the generic validator's missing/default logic wrapped
around string coercion. -/
def sql_validator_str (params : List (String × String)) (name : String) (maxLen : Nat)
    (dflt : Option String) : Except String String :=
  match lookupParam params name with
  | none =>
    match dflt with
    | none => Except.error ("Missing argument " ++ name ++ ".")
    | some d => Except.ok d
  | some raw => coerce_string name maxLen raw

/-- Modelled from the spec: `sql_validator` specialized to a `Web2PyBoolean`
column (spec 4.3). -/
def sql_validator_bool (params : List (String × String)) (name : String)
    (dflt : Option (Option Bool)) : Except String (Option Bool) :=
  match lookupParam params name with
  | none =>
    match dflt with
    | none => Except.error ("Missing argument " ++ name ++ ".")
    | some d => Except.ok d
  | some raw => coerce_bool name raw

/-- Modelled from the spec: `sql_validator` specialized to an integer column
(spec 4.3). -/
def sql_validator_int (params : List (String × String)) (name : String)
    (dflt : Option Int) : Except String Int :=
  match lookupParam params name with
  | none =>
    match dflt with
    | none => Except.error ("Missing argument " ++ name ++ ".")
    | some d => Except.ok d
  | some raw => coerce_int name raw

/-! ## Web2PyBoolean storage type (spec 3), missing `runestone.model` -/

/-- Modelled from the spec: the serializing half of the missing
`Web2PyBoolean` column type of `runestone.model` (SQLAlchemy
`process_bind_param`): true stores the single character T, false stores F,
undefined stores NULL (absent), per spec 3 and `TestWeb2PyBoolean.test_2`. -/
def process_bind_param : Option Bool → Option String
  | some true => some "T"
  | some false => some "F"
  | none => none

/-- Modelled from the spec: the deserializing half of the missing
`Web2PyBoolean` column type (SQLAlchemy `process_result_value`): the stored
character T reads back as true, F as false, NULL as undefined, per spec 3
and `TestWeb2PyBoolean.test_1`. -/
def process_result_value : Option String → Option Bool
  | some s => if s = "T" then some true else if s = "F" then some false else none
  | none => none

/-! ## Data model (spec 3), missing `runestone.model` -/

/-- Modelled from the spec: a row of the missing `Courses` model — a unique
name, an optional base-course reference, and the tri-state flags (spec 3). -/
structure Course where
  course_name : String
  base_course : Option String
  python3 : Option Bool
  login_required : Option Bool
deriving DecidableEq

/-- Look up a registered course by name. -/
def findCourse (courses : List Course) (name : String) : Option Course :=
  courses.find? (fun c => c.course_name = name)

/-- Modelled from the spec: a row of the missing `Useinfo` model (the
generic log shape of spec 3), without the server-set id and timestamp. -/
structure UseinfoRow where
  sid : String
  act : String
  div_id : String
  event : String
  course_id : String
deriving DecidableEq

/-- Modelled from the spec: a row of the missing `MchoiceAnswers` model
(the multiple-choice answer shape of spec 3), without id and timestamp. -/
structure MchoiceRow where
  sid : String
  answer : String
  correct : Option Bool
  div_id : String
  course_name : String
deriving DecidableEq

/-- Modelled from the spec: a row of the missing `TimedExam` model (the
timed-exam record shape of spec 3), without id and timestamp. -/
structure TimedExamRow where
  sid : String
  course_name : String
  correct : Int
  incorrect : Int
  skipped : Int
  time_taken : Int
  div_id : String
  reset : Option Bool
deriving DecidableEq

/-- Modelled from the spec: the store and session state the event endpoint
reads and writes — the read-only course registry, the registry of known
interaction identifiers per course, the three event tables, the session's
anonymous-pseudo-id slot, and a counter generating fresh pseudo-ids. -/
structure ServerState where
  courses : List Course
  div_ids : List (String × String)
  useinfo : List UseinfoRow
  mchoice : List MchoiceRow
  timed : List TimedExamRow
  session_anon : Option String
  next_anon : Nat
deriving DecidableEq

/-- Modelled from the spec: what the session layer reports about the
requester — whether it is authenticated and, if so, the subject id. -/
structure AuthContext where
  is_authenticated : Bool
  subject_id : String
deriving DecidableEq

/-- Modelled from the spec: the JSON object returned by the event endpoint
(spec 4.5): log, is_authenticated, and an optional error message. -/
structure ApiResponse where
  log : Bool
  is_authenticated : Bool
  error : Option String
deriving DecidableEq

/-! ## Event endpoint validation (spec 4.5), missing `hsblog` endpoint -/

/-- Modelled from the spec: a validation failure of the event endpoint.
Failures raised through the validators carry a message; the timed-exam
invalid-act check yields a failure with no message at all, as pinned by
`TestRunestoneApi.test_3` (whose expected JSON for an invalid act has no
error key, although spec 4.5 promises an invalid-action message). -/
inductive VFail where
  | msg : String → VFail
  | silent : VFail
deriving DecidableEq

/-- Lift a validator failure into an event-endpoint failure with message. -/
def liftMsg {α : Type} : Except String α → Except VFail α
  | Except.ok a => Except.ok a
  | Except.error m => Except.error (VFail.msg m)

/-- Modelled from the spec: the kind-specific payload the endpoint persists
after validation — nothing extra for a generic event, answer and tri-state
correctness for multiple-choice, reset flag and the four integers for a
timed exam (spec 4.5). -/
inductive EventWrite where
  | generic : EventWrite
  | mchoice : String → Option Bool → EventWrite
  | timed : Option Bool → Int → Int → Int → Int → EventWrite
deriving DecidableEq

/-- The fully validated outcome of the event endpoint's checks. -/
structure Validated where
  course : String
  div_id : String
  act : String
  event : String
  write : EventWrite
deriving DecidableEq

/-- Modelled from the spec: validation of the course parameter — required,
and it must name a registered course; messages pinned by
`TestRunestoneApi.test_2_1`. -/
def validate_course (courses : List Course) (params : List (String × String)) :
    Except VFail String :=
  match lookupParam params "course" with
  | none => Except.error (VFail.msg "Missing argument course.")
  | some c =>
    match findCourse courses c with
    | none => Except.error (VFail.msg ("Unknown course " ++ c ++ "."))
    | some _ => Except.ok c

/-- Modelled from the spec: validation of the div_id parameter — required,
and it must be a known interaction identifier within the course; the
unknown-div message is pinned by `TestRunestoneApi.test_2_1`. -/
def validate_div_id (divs : List (String × String)) (course : String)
    (params : List (String × String)) : Except VFail String :=
  match lookupParam params "div_id" with
  | none => Except.error (VFail.msg "Missing argument div_id.")
  | some d =>
    if (course, d) ∈ divs then Except.ok d
    else Except.error (VFail.msg ("Unknown div_id " ++ d ++ "."))

/-- Modelled from the spec: the multiple-choice branch of the event
endpoint's validation (spec 4.5): answer is required, and correct coerces
to a tri-state boolean defaulting to undefined when absent. -/
def validate_mchoice (params : List (String × String)) : Except VFail EventWrite :=
  match lookupParam params "answer" with
  | none => Except.error (VFail.msg "Missing argument answer.")
  | some ans =>
    match liftMsg (sql_validator_bool params "correct" (some none)) with
    | Except.error f => Except.error f
    | Except.ok corr => Except.ok (EventWrite.mchoice ans corr)

/-- Modelled from the spec: the timed-exam field validation (spec 4.5):
correct, incorrect, skipped and time are required integers, and the stored
reset field is true for act reset and left undefined for act finish. -/
def validate_timed_fields (params : List (String × String)) (a : String) :
    Except VFail EventWrite :=
  match liftMsg (sql_validator_int params "correct" none) with
  | Except.error f => Except.error f
  | Except.ok cc =>
    match liftMsg (sql_validator_int params "incorrect" none) with
    | Except.error f => Except.error f
    | Except.ok ic =>
      match liftMsg (sql_validator_int params "skipped" none) with
      | Except.error f => Except.error f
      | Except.ok sk =>
        match liftMsg (sql_validator_int params "time" none) with
        | Except.error f => Except.error f
        | Except.ok tt =>
          Except.ok (EventWrite.timed (if a = "reset" then some true else none) cc ic sk tt)

/-- Modelled from the spec: the event-kind-specific validation (spec 4.5).
mChoice checks answer and correct; timedExam requires act to be reset or
finish (failing with no message otherwise, as pinned by
`TestRunestoneApi.test_3`) and then its four integer fields; any other
event name is a generic event with nothing more to check. -/
def validate_kind (params : List (String × String)) (a : String) (e : String) :
    Except VFail EventWrite :=
  if e = "mChoice" then validate_mchoice params
  else if e = "timedExam" then
    if a = "reset" ∨ a = "finish" then validate_timed_fields params a
    else Except.error VFail.silent
  else Except.ok EventWrite.generic

/-- Modelled from the spec: the full validation pipeline of the missing
`hsblog` endpoint, in the order pinned by `TestRunestoneApi.test_2_1`:
course, then div_id, then event (a string column of maximum length 512),
then act (same column type, defaulting to the empty string), then the
kind-specific checks. -/
def hsblog_validate (courses : List Course) (divs : List (String × String))
    (params : List (String × String)) : Except VFail Validated :=
  match validate_course courses params with
  | Except.error f => Except.error f
  | Except.ok c =>
    match validate_div_id divs c params with
    | Except.error f => Except.error f
    | Except.ok d =>
      match liftMsg (sql_validator_str params "event" 512 none) with
      | Except.error f => Except.error f
      | Except.ok e =>
        match liftMsg (sql_validator_str params "act" 512 (some "")) with
        | Except.error f => Except.error f
        | Except.ok a =>
          match validate_kind params a e with
          | Except.error f => Except.error f
          | Except.ok w => Except.ok ⟨c, d, a, e, w⟩

/-! ## Anonymous identity manager (spec 4.6), missing from `src/` -/

/-- The generated pseudo-subject-id for the n-th anonymous session. -/
def anon_sid (n : Nat) : String := "anonymous-" ++ toString n

/-- Modelled from the spec: the Anonymous Identity Manager (spec 4.6). An
unauthenticated requester reuses the session's pseudo-id or is assigned a
fresh one; an authenticated requester uses the real subject id, and — as
pinned by `TestRunestoneApi.test_2`, whose comment and assertion demand that
after login all prior rows carry the real sid (spec 4.6 instead says prior
anonymous rows are left as-is) — any generic-log rows carrying the session's
pseudo-id are relabelled to the real subject id and the slot is cleared. -/
def resolve_identity (st : ServerState) (auth : AuthContext) : String × ServerState :=
  if auth.is_authenticated then
    match st.session_anon with
    | some p =>
      (auth.subject_id,
        { st with
            useinfo := st.useinfo.map
              (fun r => if r.sid = p then { r with sid := auth.subject_id } else r),
            session_anon := none })
    | none => (auth.subject_id, st)
  else
    match st.session_anon with
    | some p => (p, st)
    | none =>
      (anon_sid st.next_anon,
        { st with session_anon := some (anon_sid st.next_anon),
                  next_anon := st.next_anon + 1 })

/-! ## Event endpoint (spec 4.5), missing `hsblog` endpoint -/

/-- Modelled from the spec: the kind-specific persistence step of the event
endpoint (spec 4.5). Kind-specific rows are written only when the requester
is authenticated (anonymous submissions are validated but dropped); a
multiple-choice row is skipped when an identical row already exists, as
pinned by `TestRunestoneApi.test_6` (whose final submission of an identical
answer adds nothing, although spec 4.5 says duplicates append); a timed-exam
row is always appended, never updated. -/
def kind_write (auth : AuthContext) (sid : String) (w : EventWrite)
    (div course : String) (st2 : ServerState) : ServerState :=
  if auth.is_authenticated then
    match w with
    | EventWrite.generic => st2
    | EventWrite.mchoice ans corr =>
      if (⟨sid, ans, corr, div, course⟩ : MchoiceRow) ∈ st2.mchoice then st2
      else { st2 with mchoice := st2.mchoice ++ [⟨sid, ans, corr, div, course⟩] }
    | EventWrite.timed r cc ic sk tt =>
      { st2 with timed := st2.timed ++ [⟨sid, course, cc, ic, sk, tt, div, r⟩] }
  else st2

/-- Modelled from the spec: the missing `hsblog` event endpoint of
`runestone.api.endpoints` (spec 4.5). On any validation failure the state
is untouched and the response reports log false (with the message, when the
failure carries one). On success the acting identity is resolved, exactly
one generic-log row is appended, and the kind-specific write step runs. -/
def hsblog (st : ServerState) (auth : AuthContext) (params : List (String × String)) :
    ServerState × ApiResponse :=
  match hsblog_validate st.courses st.div_ids params with
  | Except.error (VFail.msg m) => (st, ⟨false, auth.is_authenticated, some m⟩)
  | Except.error VFail.silent => (st, ⟨false, auth.is_authenticated, none⟩)
  | Except.ok v =>
    let idr := resolve_identity st auth
    let st2 := { idr.2 with
      useinfo := idr.2.useinfo ++ [⟨idr.1, v.act, v.div_id, v.event, v.course⟩] }
    (kind_write auth idr.1 v.write v.div_id v.course st2, ⟨true, auth.is_authenticated, none⟩)

/-! ## Course resolver (spec 4.4), missing `runestone.book_server.server` -/

/-- Modelled from the spec: the Course Resolver of the missing
`runestone.book_server.server` (spec 4.4), returning the effective document
path, the effective course name, and the login_required and python3 flags.
The effective name (under which the document path resolves) is the base
course's name when a base-course reference is configured, else the course's
own name. The flags are those of the requested course itself, as pinned by
`TestRunestoneServer.test_3`, which renders two child courses of the one
base course with different flags (spec 4.4 instead says the flags are taken
from the base course). -/
def resolve (courses : List Course) (course_name : String) (path : String) :
    Except String (String × String × Option Bool × Option Bool) :=
  match findCourse courses course_name with
  | none => Except.error ("Unknown course " ++ course_name ++ ".")
  | some c =>
    let base := c.base_course.getD c.course_name
    Except.ok (base ++ "/" ++ path, base, c.login_required, c.python3)

/-! ## Concrete fixtures mirroring the test data of `test_all.py` -/

/-- Course rows mirroring the test fixture: one base course and a child
course whose flags differ from the base's. -/
def exCourses : List Course :=
  [⟨"test_base_course", none, some false, some false⟩,
   ⟨"test_child_course1", some "test_base_course", some true, some true⟩]

/-- Known interaction identifiers, mirroring the test fixture. -/
def exDivs : List (String × String) := [("test_child_course1", "test_div_id")]

/-- An initial server state with empty event tables and a fresh session. -/
def exState : ServerState := ⟨exCourses, exDivs, [], [], [], none, 0⟩

/-- An authenticated requester, mirroring the test user. -/
def exAuth : AuthContext := ⟨true, "brad@test.user"⟩

/-- An unauthenticated requester. -/
def exAnon : AuthContext := ⟨false, ""⟩

/-- A multiple-choice submission mirroring `TestRunestoneApi.test_6`. -/
def exMchoiceParams : List (String × String) :=
  [("course", "test_child_course1"), ("div_id", "test_div_id"), ("event", "mChoice"),
   ("act", ""), ("answer", "A, B"), ("correct", "F")]

/-- The multiple-choice row the submission above persists. -/
def exWrongRow : MchoiceRow :=
  ⟨"brad@test.user", "A, B", some false, "test_div_id", "test_child_course1"⟩

/-- The state after that row has already been persisted once. -/
def exStateWithRow : ServerState := { exState with mchoice := [exWrongRow] }

/-- A timed-exam reset submission mirroring `TestRunestoneApi.test_3`. -/
def exTimedResetParams : List (String × String) :=
  [("course", "test_child_course1"), ("div_id", "test_div_id"), ("event", "timedExam"),
   ("act", "reset"), ("correct", "1"), ("incorrect", "2"), ("skipped", "3"), ("time", "4")]

/-- A timed-exam submission with an invalid act, mirroring
`TestRunestoneApi.test_3`. -/
def exTimedBadActParams : List (String × String) :=
  [("course", "test_child_course1"), ("div_id", "test_div_id"), ("event", "timedExam"),
   ("act", "xxx"), ("correct", "1"), ("incorrect", "2"), ("skipped", "3"), ("time", "4")]

/-- A request naming an unknown course, mirroring `TestRunestoneApi.test_2_1`. -/
def exUnknownCourseParams : List (String × String) :=
  [("act", "xxx"), ("course", "xxx")]

/-- A generic (neither mChoice nor timedExam) event submission. -/
def exGenericParams : List (String × String) :=
  [("course", "test_child_course1"), ("div_id", "test_div_id"), ("event", "xxx"),
   ("act", "xxx")]

/-! ## Helper lemmas -/

theorem liftMsg_ok_iff {α : Type} (x : Except String α) (a : α) :
    liftMsg x = Except.ok a ↔ x = Except.ok a := by
  cases x <;> simp [liftMsg]

theorem liftMsg_never_silent {α : Type} (x : Except String α) :
    liftMsg x ≠ Except.error VFail.silent := by
  cases x <;> simp [liftMsg]

theorem validate_course_never_silent (courses : List Course) (params : List (String × String)) :
    validate_course courses params ≠ Except.error VFail.silent := by
  unfold validate_course
  split
  · simp
  · split <;> simp

theorem validate_div_id_never_silent (divs : List (String × String)) (course : String)
    (params : List (String × String)) :
    validate_div_id divs course params ≠ Except.error VFail.silent := by
  unfold validate_div_id
  split
  · simp
  · split <;> simp

theorem validate_mchoice_never_silent (params : List (String × String)) :
    validate_mchoice params ≠ Except.error VFail.silent := by
  unfold validate_mchoice
  split
  · simp
  · split
    · next f heq =>
      intro hc
      simp at hc
      subst hc
      exact liftMsg_never_silent _ heq
    · simp

theorem validate_timed_fields_never_silent (params : List (String × String)) (a : String) :
    validate_timed_fields params a ≠ Except.error VFail.silent := by
  unfold validate_timed_fields
  split
  · next f heq =>
    intro hc
    simp at hc
    subst hc
    exact liftMsg_never_silent _ heq
  · split
    · next f heq =>
      intro hc
      simp at hc
      subst hc
      exact liftMsg_never_silent _ heq
    · split
      · next f heq =>
        intro hc
        simp at hc
        subst hc
        exact liftMsg_never_silent _ heq
      · split
        · next f heq =>
          intro hc
          simp at hc
          subst hc
          exact liftMsg_never_silent _ heq
        · simp

theorem validate_kind_silent_inv {params : List (String × String)} {a e : String}
    (h : validate_kind params a e = Except.error VFail.silent) :
    e = "timedExam" ∧ a ≠ "reset" ∧ a ≠ "finish" := by
  unfold validate_kind at h
  by_cases he : e = "mChoice"
  · rw [if_pos he] at h
    exact absurd h (validate_mchoice_never_silent params)
  · rw [if_neg he] at h
    by_cases ht : e = "timedExam"
    · rw [if_pos ht] at h
      by_cases ha : a = "reset" ∨ a = "finish"
      · rw [if_pos ha] at h
        exact absurd h (validate_timed_fields_never_silent params a)
      · push_neg at ha
        exact ⟨ht, ha⟩
    · rw [if_neg ht] at h
      simp at h

theorem validate_mchoice_ok_inv {params : List (String × String)} {w : EventWrite}
    (h : validate_mchoice params = Except.ok w) :
    ∃ ans corr, w = EventWrite.mchoice ans corr ∧
      lookupParam params "answer" = some ans ∧
      sql_validator_bool params "correct" (some none) = Except.ok corr := by
  unfold validate_mchoice at h
  split at h
  · simp at h
  · next ans heqa =>
    split at h
    · simp at h
    · next corr heqb =>
      simp at h
      subst h
      exact ⟨ans, corr, rfl, heqa, (liftMsg_ok_iff _ _).mp heqb⟩

theorem validate_timed_fields_ok_inv {params : List (String × String)} {a : String}
    {w : EventWrite} (h : validate_timed_fields params a = Except.ok w) :
    ∃ cc ic sk tt,
      w = EventWrite.timed (if a = "reset" then some true else none) cc ic sk tt ∧
      sql_validator_int params "correct" none = Except.ok cc ∧
      sql_validator_int params "incorrect" none = Except.ok ic ∧
      sql_validator_int params "skipped" none = Except.ok sk ∧
      sql_validator_int params "time" none = Except.ok tt := by
  unfold validate_timed_fields at h
  split at h
  · simp at h
  · next cc heq1 =>
    split at h
    · simp at h
    · next ic heq2 =>
      split at h
      · simp at h
      · next sk heq3 =>
        split at h
        · simp at h
        · next tt heq4 =>
          simp at h
          subst h
          exact ⟨cc, ic, sk, tt, rfl, (liftMsg_ok_iff _ _).mp heq1,
            (liftMsg_ok_iff _ _).mp heq2, (liftMsg_ok_iff _ _).mp heq3,
            (liftMsg_ok_iff _ _).mp heq4⟩

theorem validate_kind_mchoice_inv {params : List (String × String)} {a e ans : String}
    {corr : Option Bool}
    (h : validate_kind params a e = Except.ok (EventWrite.mchoice ans corr)) :
    e = "mChoice" ∧ lookupParam params "answer" = some ans ∧
    sql_validator_bool params "correct" (some none) = Except.ok corr := by
  unfold validate_kind at h
  by_cases he : e = "mChoice"
  · rw [if_pos he] at h
    obtain ⟨ans', corr', hw, hans, hcorr⟩ := validate_mchoice_ok_inv h
    cases hw
    exact ⟨he, hans, hcorr⟩
  · rw [if_neg he] at h
    by_cases ht : e = "timedExam"
    · rw [if_pos ht] at h
      by_cases ha : a = "reset" ∨ a = "finish"
      · rw [if_pos ha] at h
        obtain ⟨cc, ic, sk, tt, hw, -⟩ := validate_timed_fields_ok_inv h
        cases hw
      · rw [if_neg ha] at h
        simp at h
    · rw [if_neg ht] at h
      simp at h

theorem validate_kind_timed_inv {params : List (String × String)} {a e : String}
    {r : Option Bool} {cc ic sk tt : Int}
    (h : validate_kind params a e = Except.ok (EventWrite.timed r cc ic sk tt)) :
    e = "timedExam" ∧ (a = "reset" ∨ a = "finish") ∧
    r = (if a = "reset" then some true else none) ∧
    sql_validator_int params "correct" none = Except.ok cc ∧
    sql_validator_int params "incorrect" none = Except.ok ic ∧
    sql_validator_int params "skipped" none = Except.ok sk ∧
    sql_validator_int params "time" none = Except.ok tt := by
  unfold validate_kind at h
  by_cases he : e = "mChoice"
  · rw [if_pos he] at h
    obtain ⟨ans, corr, hw, -⟩ := validate_mchoice_ok_inv h
    cases hw
  · rw [if_neg he] at h
    by_cases ht : e = "timedExam"
    · rw [if_pos ht] at h
      by_cases ha : a = "reset" ∨ a = "finish"
      · rw [if_pos ha] at h
        obtain ⟨cc', ic', sk', tt', hw, h1, h2, h3, h4⟩ := validate_timed_fields_ok_inv h
        cases hw
        exact ⟨ht, ha, rfl, h1, h2, h3, h4⟩
      · rw [if_neg ha] at h
        simp at h
    · rw [if_neg ht] at h
      simp at h

theorem sql_validator_int_ok_inv {params : List (String × String)} {name : String} {n : Int}
    (h : sql_validator_int params name none = Except.ok n) :
    ∃ raw, lookupParam params name = some raw ∧ parseInt raw = some n := by
  unfold sql_validator_int at h
  split at h
  · simp at h
  · next raw heql =>
    unfold coerce_int at h
    split at h
    · next m heqp =>
      simp at h
      subst h
      exact ⟨raw, heql, heqp⟩
    · simp at h

theorem hsblog_validate_ok_inv {courses : List Course} {divs : List (String × String)}
    {params : List (String × String)} {v : Validated}
    (hv : hsblog_validate courses divs params = Except.ok v) :
    validate_course courses params = Except.ok v.course ∧
    validate_div_id divs v.course params = Except.ok v.div_id ∧
    sql_validator_str params "event" 512 none = Except.ok v.event ∧
    sql_validator_str params "act" 512 (some "") = Except.ok v.act ∧
    validate_kind params v.act v.event = Except.ok v.write := by
  unfold hsblog_validate at hv
  split at hv
  · simp at hv
  · next c heq1 =>
    split at hv
    · simp at hv
    · next d heq2 =>
      split at hv
      · simp at hv
      · next e heq3 =>
        split at hv
        · simp at hv
        · next a heq4 =>
          split at hv
          · simp at hv
          · next w heq5 =>
            simp at hv
            subst hv
            exact ⟨heq1, heq2, (liftMsg_ok_iff _ _).mp heq3,
              (liftMsg_ok_iff _ _).mp heq4, heq5⟩

theorem hsblog_validate_silent_inv {courses : List Course} {divs : List (String × String)}
    {params : List (String × String)}
    (hv : hsblog_validate courses divs params = Except.error VFail.silent) :
    sql_validator_str params "event" 512 none = Except.ok "timedExam" ∧
    ∃ a, sql_validator_str params "act" 512 (some "") = Except.ok a ∧
      a ≠ "reset" ∧ a ≠ "finish" := by
  unfold hsblog_validate at hv
  split at hv
  · next f heq1 =>
    simp at hv
    subst hv
    exact absurd heq1 (validate_course_never_silent courses params)
  · next c heq1 =>
    split at hv
    · next f heq2 =>
      simp at hv
      subst hv
      exact absurd heq2 (validate_div_id_never_silent divs c params)
    · next d heq2 =>
      split at hv
      · next f heq3 =>
        simp at hv
        subst hv
        exact absurd heq3 (liftMsg_never_silent _)
      · next e heq3 =>
        split at hv
        · next f heq4 =>
          simp at hv
          subst hv
          exact absurd heq4 (liftMsg_never_silent _)
        · next a heq4 =>
          split at hv
          · next f heq5 =>
            simp at hv
            subst hv
            obtain ⟨he, har, haf⟩ := validate_kind_silent_inv heq5
            subst he
            exact ⟨(liftMsg_ok_iff _ _).mp heq3, a, (liftMsg_ok_iff _ _).mp heq4, har, haf⟩
          · simp at hv

theorem resolve_identity_fst_auth (st : ServerState) (auth : AuthContext)
    (h : auth.is_authenticated = true) :
    (resolve_identity st auth).1 = auth.subject_id := by
  unfold resolve_identity
  rw [h]
  cases st.session_anon <;> simp

theorem resolve_identity_mchoice (st : ServerState) (auth : AuthContext) :
    (resolve_identity st auth).2.mchoice = st.mchoice := by
  unfold resolve_identity
  cases auth.is_authenticated <;> cases st.session_anon <;> simp

theorem resolve_identity_timed (st : ServerState) (auth : AuthContext) :
    (resolve_identity st auth).2.timed = st.timed := by
  unfold resolve_identity
  cases auth.is_authenticated <;> cases st.session_anon <;> simp

theorem resolve_identity_courses (st : ServerState) (auth : AuthContext) :
    (resolve_identity st auth).2.courses = st.courses := by
  unfold resolve_identity
  cases auth.is_authenticated <;> cases st.session_anon <;> simp

theorem resolve_identity_div_ids (st : ServerState) (auth : AuthContext) :
    (resolve_identity st auth).2.div_ids = st.div_ids := by
  unfold resolve_identity
  cases auth.is_authenticated <;> cases st.session_anon <;> simp

theorem resolve_identity_unauth_none (st : ServerState) (auth : AuthContext)
    (h : auth.is_authenticated = false) (hs : st.session_anon = none) :
    resolve_identity st auth =
      (anon_sid st.next_anon,
        { st with session_anon := some (anon_sid st.next_anon),
                  next_anon := st.next_anon + 1 }) := by
  simp [resolve_identity, h, hs]

theorem resolve_identity_unauth_some (st : ServerState) (auth : AuthContext) (p : String)
    (h : auth.is_authenticated = false) (hs : st.session_anon = some p) :
    resolve_identity st auth = (p, st) := by
  simp [resolve_identity, h, hs]

theorem resolve_identity_auth_some (st : ServerState) (auth : AuthContext) (p : String)
    (h : auth.is_authenticated = true) (hs : st.session_anon = some p) :
    resolve_identity st auth =
      (auth.subject_id,
        { st with
            useinfo := st.useinfo.map
              (fun r => if r.sid = p then { r with sid := auth.subject_id } else r),
            session_anon := none }) := by
  simp [resolve_identity, h, hs]

theorem kind_write_useinfo (auth : AuthContext) (sid : String) (w : EventWrite)
    (div course : String) (st2 : ServerState) :
    (kind_write auth sid w div course st2).useinfo = st2.useinfo := by
  unfold kind_write
  cases hb : auth.is_authenticated
  · simp
  · cases w with
    | generic => simp
    | mchoice ans corr => by_cases hm : (⟨sid, ans, corr, div, course⟩ : MchoiceRow) ∈ st2.mchoice <;> simp [hm]
    | timed r cc ic sk tt => simp

theorem kind_write_courses (auth : AuthContext) (sid : String) (w : EventWrite)
    (div course : String) (st2 : ServerState) :
    (kind_write auth sid w div course st2).courses = st2.courses := by
  unfold kind_write
  cases hb : auth.is_authenticated
  · simp
  · cases w with
    | generic => simp
    | mchoice ans corr => by_cases hm : (⟨sid, ans, corr, div, course⟩ : MchoiceRow) ∈ st2.mchoice <;> simp [hm]
    | timed r cc ic sk tt => simp

theorem kind_write_div_ids (auth : AuthContext) (sid : String) (w : EventWrite)
    (div course : String) (st2 : ServerState) :
    (kind_write auth sid w div course st2).div_ids = st2.div_ids := by
  unfold kind_write
  cases hb : auth.is_authenticated
  · simp
  · cases w with
    | generic => simp
    | mchoice ans corr => by_cases hm : (⟨sid, ans, corr, div, course⟩ : MchoiceRow) ∈ st2.mchoice <;> simp [hm]
    | timed r cc ic sk tt => simp

theorem kind_write_session_anon (auth : AuthContext) (sid : String) (w : EventWrite)
    (div course : String) (st2 : ServerState) :
    (kind_write auth sid w div course st2).session_anon = st2.session_anon := by
  unfold kind_write
  cases hb : auth.is_authenticated
  · simp
  · cases w with
    | generic => simp
    | mchoice ans corr => by_cases hm : (⟨sid, ans, corr, div, course⟩ : MchoiceRow) ∈ st2.mchoice <;> simp [hm]
    | timed r cc ic sk tt => simp

theorem kind_write_next_anon (auth : AuthContext) (sid : String) (w : EventWrite)
    (div course : String) (st2 : ServerState) :
    (kind_write auth sid w div course st2).next_anon = st2.next_anon := by
  unfold kind_write
  cases hb : auth.is_authenticated
  · simp
  · cases w with
    | generic => simp
    | mchoice ans corr => by_cases hm : (⟨sid, ans, corr, div, course⟩ : MchoiceRow) ∈ st2.mchoice <;> simp [hm]
    | timed r cc ic sk tt => simp

theorem kind_write_unauth (auth : AuthContext) (sid : String) (w : EventWrite)
    (div course : String) (st2 : ServerState) (h : auth.is_authenticated = false) :
    kind_write auth sid w div course st2 = st2 := by
  unfold kind_write
  rw [h]
  simp

theorem kind_write_generic (auth : AuthContext) (sid : String)
    (div course : String) (st2 : ServerState) :
    kind_write auth sid EventWrite.generic div course st2 = st2 := by
  unfold kind_write
  cases auth.is_authenticated <;> simp

theorem kind_write_mchoice_eq (auth : AuthContext) (sid : String) (ans : String)
    (corr : Option Bool) (div course : String) (st2 : ServerState)
    (h : auth.is_authenticated = true) :
    kind_write auth sid (EventWrite.mchoice ans corr) div course st2 =
      (if (⟨sid, ans, corr, div, course⟩ : MchoiceRow) ∈ st2.mchoice then st2
       else { st2 with mchoice := st2.mchoice ++ [⟨sid, ans, corr, div, course⟩] }) := by
  unfold kind_write
  rw [h]
  simp

theorem kind_write_timed_eq (auth : AuthContext) (sid : String) (r : Option Bool)
    (cc ic sk tt : Int) (div course : String) (st2 : ServerState)
    (h : auth.is_authenticated = true) :
    kind_write auth sid (EventWrite.timed r cc ic sk tt) div course st2 =
      { st2 with timed := st2.timed ++ [⟨sid, course, cc, ic, sk, tt, div, r⟩] } := by
  unfold kind_write
  rw [h]
  simp

theorem kind_write_mchoice_result (auth : AuthContext) (sid ans : String)
    (corr : Option Bool) (div course : String) (st2 : ServerState)
    (h : auth.is_authenticated = true) :
    (kind_write auth sid (EventWrite.mchoice ans corr) div course st2).mchoice =
      (if (⟨sid, ans, corr, div, course⟩ : MchoiceRow) ∈ st2.mchoice then st2.mchoice
       else st2.mchoice ++ [⟨sid, ans, corr, div, course⟩]) := by
  rw [kind_write_mchoice_eq auth sid ans corr div course st2 h]
  split <;> simp

theorem kind_write_timed_result (auth : AuthContext) (sid : String) (r : Option Bool)
    (cc ic sk tt : Int) (div course : String) (st2 : ServerState)
    (h : auth.is_authenticated = true) :
    (kind_write auth sid (EventWrite.timed r cc ic sk tt) div course st2).timed =
      st2.timed ++ [⟨sid, course, cc, ic, sk, tt, div, r⟩] := by
  rw [kind_write_timed_eq auth sid r cc ic sk tt div course st2 h]

theorem kind_write_mchoice_timed_proj (auth : AuthContext) (sid ans : String)
    (corr : Option Bool) (div course : String) (st2 : ServerState) :
    (kind_write auth sid (EventWrite.mchoice ans corr) div course st2).timed = st2.timed := by
  unfold kind_write
  cases hb : auth.is_authenticated
  · simp
  · by_cases hm : (⟨sid, ans, corr, div, course⟩ : MchoiceRow) ∈ st2.mchoice <;> simp [hm]

theorem kind_write_timed_mchoice_proj (auth : AuthContext) (sid : String) (r : Option Bool)
    (cc ic sk tt : Int) (div course : String) (st2 : ServerState) :
    (kind_write auth sid (EventWrite.timed r cc ic sk tt) div course st2).mchoice =
      st2.mchoice := by
  unfold kind_write
  cases hb : auth.is_authenticated <;> simp

theorem hsblog_ok (st : ServerState) (auth : AuthContext)
    (params : List (String × String)) (v : Validated)
    (hv : hsblog_validate st.courses st.div_ids params = Except.ok v) :
    hsblog st auth params =
      (kind_write auth (resolve_identity st auth).1 v.write v.div_id v.course
        { (resolve_identity st auth).2 with
            useinfo := (resolve_identity st auth).2.useinfo ++
              [⟨(resolve_identity st auth).1, v.act, v.div_id, v.event, v.course⟩] },
       ⟨true, auth.is_authenticated, none⟩) := by
  unfold hsblog
  rw [hv]

theorem hsblog_err_msg (st : ServerState) (auth : AuthContext)
    (params : List (String × String)) (m : String)
    (hv : hsblog_validate st.courses st.div_ids params = Except.error (VFail.msg m)) :
    hsblog st auth params = (st, ⟨false, auth.is_authenticated, some m⟩) := by
  unfold hsblog
  rw [hv]

theorem hsblog_err_silent (st : ServerState) (auth : AuthContext)
    (params : List (String × String))
    (hv : hsblog_validate st.courses st.div_ids params = Except.error VFail.silent) :
    hsblog st auth params = (st, ⟨false, auth.is_authenticated, none⟩) := by
  unfold hsblog
  rw [hv]

/-- C7. Tri-state boolean round-trip: encoding true yields T, false yields F,
undefined yields an absent (NULL) stored value, and decoding each of these
three stored forms yields back exactly the original logical state, so the
ORM-mediated write path (encode, then raw read) and the raw-storage write
path (raw T/F/NULL, then decode) both preserve all three states. -/
theorem web2py_roundtrip :
    process_bind_param (some true) = some "T" ∧
    process_bind_param (some false) = some "F" ∧
    process_bind_param none = none ∧
    process_result_value (some "T") = some true ∧
    process_result_value (some "F") = some false ∧
    process_result_value none = none ∧
    process_result_value (process_bind_param (some true)) = some true ∧
    process_result_value (process_bind_param (some false)) = some false ∧
    process_result_value (process_bind_param none) = none := by
  refine ⟨rfl, rfl, rfl, ?_, ?_, rfl, ?_, ?_, rfl⟩ <;> decide

/-- C8. Generic parameter validator: (1) a parameter absent with no default
fails with exactly the missing-argument message; (2) absent with a default
returns the default for every possible predicate (so no predicate is
invoked); (3) present with a predicate that signals failure (false-y return
or raise, modelled as `none`) fails with the literal error string, or, when
the error spec is a function, with the string it produces from the raw
value. -/
theorem generic_validator_spec {α : Type} (name : String) :
    (∀ (params : List (String × String)) (v : String → Option α) (espec : ErrorSpec),
      lookupParam params name = none →
      generic_validator params name v espec none =
        Except.error ("Missing argument " ++ name ++ ".")) ∧
    (∀ (params : List (String × String)) (v : String → Option α) (espec : ErrorSpec) (d : α),
      lookupParam params name = none →
      generic_validator params name v espec (some d) = Except.ok d) ∧
    (∀ (params : List (String × String)) (v : String → Option α) (espec : ErrorSpec)
      (dflt : Option α) (raw : String),
      lookupParam params name = some raw → v raw = none →
      generic_validator params name v espec dflt = Except.error (errorMessage espec raw)) ∧
    (∀ (s raw : String), errorMessage (ErrorSpec.literal s) raw = s) ∧
    (∀ (f : String → String) (raw : String), errorMessage (ErrorSpec.computed f) raw = f raw) := by
  refine ⟨?_, ?_, ?_, fun s raw => rfl, fun f raw => rfl⟩
  · intro params v espec h
    simp [generic_validator, h]
  · intro params v espec d h
    simp [generic_validator, h]
  · intro params v espec dflt raw h hv
    simp [generic_validator, h, hv]

/-- Witness for C8, mirroring `TestRunestoneApi.test_4`: with no parameters,
param1 is missing; with a default of 1 the default is returned; with
param1=xxx present and a predicate that fails, the literal error yyy is
reported. -/
theorem generic_validator_spec_witness :
    generic_validator ([] : List (String × String)) "param1" (fun _ => (none : Option Nat))
      (ErrorSpec.literal "yyy") none = Except.error "Missing argument param1." ∧
    generic_validator ([] : List (String × String)) "param1" (fun _ => (none : Option Nat))
      (ErrorSpec.literal "yyy") (some 1) = Except.ok 1 ∧
    generic_validator [("param1", "xxx")] "param1" (fun _ => (none : Option Nat))
      (ErrorSpec.literal "yyy") none = Except.error "yyy" :=
  ⟨(generic_validator_spec "param1").1 [] _ _ rfl,
   (generic_validator_spec "param1").2.1 [] _ _ 1 rfl,
   (generic_validator_spec "param1").2.2.1 [("param1", "xxx")] _ _ none "xxx" rfl rfl⟩

/-- C9. String coercion against a column with maximum length `maxLen`: every
string of length at most the maximum (including the empty string and a
string of exactly the maximum length) is returned unchanged; every longer
string fails with exactly the length-exceeded message; and the SQL validator
applies exactly this coercion whenever the parameter is present. -/
theorem string_coercion_spec (name : String) (maxLen : Nat) (s : String) :
    (s.length ≤ maxLen → coerce_string name maxLen s = Except.ok s) ∧
    (maxLen < s.length → coerce_string name maxLen s =
      Except.error ("Argument " ++ name ++ " length " ++ toString s.length ++
        " exceeds the maximum length of " ++ toString maxLen ++ ".")) ∧
    (∀ (params : List (String × String)) (dflt : Option String),
      lookupParam params name = some s →
      sql_validator_str params name maxLen dflt = coerce_string name maxLen s) := by
  refine ⟨?_, ?_, ?_⟩
  · intro h
    simp [coerce_string, h]
  · intro h
    simp [coerce_string, Nat.not_le.mpr h]
  · intro params dflt h
    simp [sql_validator_str, h]

/-- Witness for C9, mirroring `TestRunestoneApi.test_5` with a column of
maximum length 10: the empty string and a 10-character string pass
unchanged, while an 11-character string fails with the exact message. -/
theorem string_coercion_spec_witness :
    coerce_string "param1" 10 "" = Except.ok "" ∧
    coerce_string "param1" 10 "xxxxxxxxxx" = Except.ok "xxxxxxxxxx" ∧
    coerce_string "param1" 10 "xxxxxxxxxxx" =
      Except.error "Argument param1 length 11 exceeds the maximum length of 10." :=
  ⟨(string_coercion_spec "param1" 10 "").1 (by decide),
   (string_coercion_spec "param1" 10 "xxxxxxxxxx").1 (by decide),
   (string_coercion_spec "param1" 10 "xxxxxxxxxxx").2.1 (by decide)⟩

/-- C10. Integer coercion parses standard integer literals — "-10" yields
-10, "10" yields 10, "0" yields 0 — and every non-parsable token fails with
exactly the unable-to-convert message (never a length or range message). -/
theorem int_coercion_spec (name : String) :
    coerce_int name "-10" = Except.ok (-10) ∧
    coerce_int name "10" = Except.ok 10 ∧
    coerce_int name "0" = Except.ok 0 ∧
    (∀ s : String, parseInt s = none →
      coerce_int name s =
        Except.error ("Unable to convert argument " ++ name ++ " to an integer.")) := by
  refine ⟨?_, ?_, ?_, ?_⟩
  · show coerce_int name "-10" = Except.ok (-10)
    unfold coerce_int
    norm_num [show parseInt "-10" = some (-10) by decide]
  · unfold coerce_int
    norm_num [show parseInt "10" = some 10 by decide]
  · unfold coerce_int
    norm_num [show parseInt "0" = some 0 by decide]
  · intro s h
    unfold coerce_int
    rw [h]

/-- Witness for C10, mirroring `TestRunestoneApi.test_5`: the token xxx is
not parsable and fails with the exact message. -/
theorem int_coercion_spec_witness :
    coerce_int "param1" "xxx" = Except.error "Unable to convert argument param1 to an integer." :=
  (int_coercion_spec "param1").2.2.2 "xxx" (by decide)

/-- Counterexample to C1 as stated: in a registry where the child course's
flags (true, true) differ from its base course's flags (false, false),
resolving the child yields the child's own flags, not the base course's
flags as the claim demands — matching `TestRunestoneServer.test_3`, which
renders two child courses of the one base course with different flags. -/
theorem course_resolve_flags_counterexample :
    findCourse exCourses "test_child_course1" =
      some ⟨"test_child_course1", some "test_base_course", some true, some true⟩ ∧
    findCourse exCourses "test_base_course" =
      some ⟨"test_base_course", none, some false, some false⟩ ∧
    resolve exCourses "test_child_course1" "foo.html" =
      Except.ok ("test_base_course/foo.html", "test_base_course", some true, some true) ∧
    (some true : Option Bool) ≠ (some false : Option Bool) :=
  ⟨rfl, rfl, rfl, by decide⟩

/-- C1 (amended). Course resolution: for every registered course, resolve
returns the base course's name as the effective course name when a
base-course reference is configured (so the document path resolves under
the base course's name), else the course's own name; the login_required and
python3 flags returned are the requested course's own flags in both
cases. -/
theorem course_resolve_amended (courses : List Course) (name path : String) (c : Course)
    (hc : findCourse courses name = some c) :
    resolve courses name path =
      Except.ok (c.base_course.getD c.course_name ++ "/" ++ path,
        c.base_course.getD c.course_name, c.login_required, c.python3) := by
  unfold resolve
  rw [hc]

/-- Witness for C1 (amended), mirroring `TestRunestoneServer.test_3`. -/
theorem course_resolve_amended_witness :
    resolve exCourses "test_child_course1" "foo.html" =
      Except.ok ((some "test_base_course").getD "test_child_course1" ++ "/" ++ "foo.html",
        (some "test_base_course").getD "test_child_course1", some true, some true) :=
  course_resolve_amended exCourses "test_child_course1" "foo.html"
    ⟨"test_child_course1", some "test_base_course", some true, some true⟩ rfl

/-- Counterexample to C2 as stated: an authenticated multiple-choice
submission identical to an already persisted row appends nothing — the
table keeps the single original row instead of gaining a duplicate, exactly
as `TestRunestoneApi.test_6` expects. -/
theorem mchoice_dedup_counterexample :
    (hsblog exStateWithRow exAuth exMchoiceParams).2.log = true ∧
    (hsblog exStateWithRow exAuth exMchoiceParams).1.mchoice = [exWrongRow] ∧
    [exWrongRow] ≠ exStateWithRow.mchoice ++ [exWrongRow] :=
  ⟨rfl, rfl, by decide⟩

/-- C2 (amended). For every authenticated, validated multiple-choice
submission the endpoint reports log true, and appends a new Multiple-choice
row leaving all prior rows intact — unless a row identical to the one about
to be written (same subject, answer, correctness, div_id and course)
already exists, in which case no row is appended: repeated identical
submissions are de-duplicated rather than appended. -/
theorem mchoice_dedup_amended (st : ServerState) (auth : AuthContext)
    (params : List (String × String)) (v : Validated) (ans : String) (corr : Option Bool)
    (hv : hsblog_validate st.courses st.div_ids params = Except.ok v)
    (hw : v.write = EventWrite.mchoice ans corr)
    (hauth : auth.is_authenticated = true) :
    (hsblog st auth params).2 = ⟨true, true, none⟩ ∧
    (hsblog st auth params).1.mchoice =
      (if (⟨auth.subject_id, ans, corr, v.div_id, v.course⟩ : MchoiceRow) ∈ st.mchoice
       then st.mchoice
       else st.mchoice ++ [⟨auth.subject_id, ans, corr, v.div_id, v.course⟩]) := by
  have he := hsblog_ok st auth params v hv
  constructor
  · rw [he, hauth]
  · rw [he]
    rw [hw]
    rw [resolve_identity_fst_auth st auth hauth]
    rw [kind_write_mchoice_result _ _ _ _ _ _ _ hauth]
    simp [resolve_identity_mchoice]

/-- Witness for C2 (amended): a first authenticated submission appends its
row to the table. -/
theorem mchoice_dedup_amended_witness :
    (hsblog exState exAuth exMchoiceParams).1.mchoice =
      (if exWrongRow ∈ exState.mchoice then exState.mchoice
       else exState.mchoice ++ [exWrongRow]) :=
  (mchoice_dedup_amended exState exAuth exMchoiceParams
    ⟨"test_child_course1", "test_div_id", "", "mChoice", EventWrite.mchoice "A, B" (some false)⟩
    "A, B" (some false) rfl rfl rfl).2

/-- Counterexample to C4 as stated: a timed-exam request that passes every
other check but carries act xxx fails validation with log false, yet the
response carries no error message at all, and no row is written — exactly
the response shape `TestRunestoneApi.test_3` expects for an invalid act. -/
theorem error_response_counterexample :
    (hsblog exState exAuth exTimedBadActParams).2.log = false ∧
    (hsblog exState exAuth exTimedBadActParams).2.error = none ∧
    (hsblog exState exAuth exTimedBadActParams).1 = exState :=
  ⟨rfl, rfl, rfl⟩

/-- C4 (amended). On any validation failure the event endpoint leaves the
state untouched (zero event rows written) and responds with log false and
the requester's authentication flag; failures raised through the validators
carry exactly their message in the error field, but a timed-exam request
whose act is neither reset nor finish produces log false with no error
message at all. -/
theorem error_response_amended (st : ServerState) (auth : AuthContext)
    (params : List (String × String)) :
    ((hsblog st auth params).2.log = false → (hsblog st auth params).1 = st) ∧
    (∀ m, hsblog_validate st.courses st.div_ids params = Except.error (VFail.msg m) →
      hsblog st auth params = (st, ⟨false, auth.is_authenticated, some m⟩)) ∧
    (hsblog_validate st.courses st.div_ids params = Except.error VFail.silent →
      hsblog st auth params = (st, ⟨false, auth.is_authenticated, none⟩)) ∧
    ((hsblog st auth params).2.log = false → (hsblog st auth params).2.error = none →
      sql_validator_str params "event" 512 none = Except.ok "timedExam" ∧
      ∃ a, sql_validator_str params "act" 512 (some "") = Except.ok a ∧
        a ≠ "reset" ∧ a ≠ "finish") := by
  cases hr : hsblog_validate st.courses st.div_ids params with
  | error f =>
    cases f with
    | msg m =>
      have he := hsblog_err_msg st auth params m hr
      refine ⟨fun _ => by rw [he], ?_, ?_, ?_⟩
      · intro m' hm'
        simp at hm'
        subst hm'
        exact he
      · intro hs
        simp at hs
      · intro _ herr
        rw [he] at herr
        simp at herr
    | silent =>
      have he := hsblog_err_silent st auth params hr
      refine ⟨fun _ => by rw [he], ?_, fun _ => he, ?_⟩
      · intro m' hm'
        simp at hm'
      · intro _ _
        exact hsblog_validate_silent_inv hr
  | ok v =>
    have he := hsblog_ok st auth params v hr
    refine ⟨?_, ?_, ?_, ?_⟩
    · intro hlog
      rw [he] at hlog
      simp at hlog
    · intro m hm
      simp at hm
    · intro hs
      simp at hs
    · intro hlog
      rw [he] at hlog
      simp at hlog

/-- Witness for C4 (amended), mirroring `TestRunestoneApi.test_2_1`: an
unknown course fails with log false and the exact message, writing
nothing. -/
theorem error_response_amended_witness :
    hsblog exState exAnon exUnknownCourseParams =
      (exState, ⟨false, false, some "Unknown course xxx."⟩) :=
  (error_response_amended exState exAnon exUnknownCourseParams).2.1 "Unknown course xxx." rfl

/-- C5. Timed-exam persistence: for every validated timed-exam event, act
reset yields a stored reset field of true and act finish leaves it
undefined; the persisted correct, incorrect, skipped and time_taken values
are exactly the integer coercions of the submitted parameters; when
authenticated, a single row carrying them is appended; when
unauthenticated, the response still reports log true but no timed-exam row
is written. -/
theorem timed_exam_persistence (st : ServerState) (auth : AuthContext)
    (params : List (String × String)) (v : Validated) (r : Option Bool) (cc ic sk tt : Int)
    (hv : hsblog_validate st.courses st.div_ids params = Except.ok v)
    (hw : v.write = EventWrite.timed r cc ic sk tt) :
    (v.act = "reset" → r = some true) ∧
    (v.act = "finish" → r = none) ∧
    (∀ s, lookupParam params "correct" = some s → parseInt s = some cc) ∧
    (∀ s, lookupParam params "incorrect" = some s → parseInt s = some ic) ∧
    (∀ s, lookupParam params "skipped" = some s → parseInt s = some sk) ∧
    (∀ s, lookupParam params "time" = some s → parseInt s = some tt) ∧
    (auth.is_authenticated = true →
      (hsblog st auth params).2 = ⟨true, true, none⟩ ∧
      (hsblog st auth params).1.timed =
        st.timed ++ [⟨auth.subject_id, v.course, cc, ic, sk, tt, v.div_id, r⟩]) ∧
    (auth.is_authenticated = false →
      (hsblog st auth params).2 = ⟨true, false, none⟩ ∧
      (hsblog st auth params).1.timed = st.timed) := by
  obtain ⟨-, -, -, -, hk⟩ := hsblog_validate_ok_inv hv
  rw [hw] at hk
  obtain ⟨he, ha, hr, h1, h2, h3, h4⟩ := validate_kind_timed_inv hk
  have he2 := hsblog_ok st auth params v hv
  refine ⟨?_, ?_, ?_, ?_, ?_, ?_, ?_, ?_⟩
  · intro hra
    rw [hr, if_pos hra]
  · intro hrf
    have hne : ¬ v.act = "reset" := by rw [hrf]; decide
    rw [hr, if_neg hne]
  · intro s hs
    obtain ⟨raw, hraw, hp⟩ := sql_validator_int_ok_inv h1
    rw [hraw] at hs
    simp at hs
    subst hs
    exact hp
  · intro s hs
    obtain ⟨raw, hraw, hp⟩ := sql_validator_int_ok_inv h2
    rw [hraw] at hs
    simp at hs
    subst hs
    exact hp
  · intro s hs
    obtain ⟨raw, hraw, hp⟩ := sql_validator_int_ok_inv h3
    rw [hraw] at hs
    simp at hs
    subst hs
    exact hp
  · intro s hs
    obtain ⟨raw, hraw, hp⟩ := sql_validator_int_ok_inv h4
    rw [hraw] at hs
    simp at hs
    subst hs
    exact hp
  · intro hauth
    constructor
    · rw [he2, hauth]
    · rw [he2, hw]
      rw [resolve_identity_fst_auth st auth hauth]
      rw [kind_write_timed_result _ _ _ _ _ _ _ _ _ _ hauth]
      simp [resolve_identity_timed]
  · intro hna
    constructor
    · rw [he2, hna]
    · rw [he2, hw, kind_write_unauth _ _ _ _ _ _ hna]
      simp [resolve_identity_timed]

/-- Witness for C5, mirroring `TestRunestoneApi.test_3`: an authenticated
act reset with correct 1, incorrect 2, skipped 3 and time 4 persists
exactly one row with reset true and those integers. -/
theorem timed_exam_persistence_witness :
    (hsblog exState exAuth exTimedResetParams).1.timed =
      [⟨"brad@test.user", "test_child_course1", 1, 2, 3, 4, "test_div_id", some true⟩] := by
  have h := timed_exam_persistence exState exAuth exTimedResetParams
    ⟨"test_child_course1", "test_div_id", "reset", "timedExam",
      EventWrite.timed (some true) 1 2 3 4⟩ (some true) 1 2 3 4 rfl rfl
  have h2 := (h.2.2.2.2.2.2.1 rfl).2
  simpa using h2

/-- Counterexample to C6 as stated: an authenticated, validated
multiple-choice submission identical to an already persisted row writes its
generic-log row but no kind-specific row, so a kind-specific row is not
always written in addition when the requester is authenticated. -/
theorem useinfo_row_counterexample :
    (hsblog exStateWithRow exAuth exMchoiceParams).2 = ⟨true, true, none⟩ ∧
    (hsblog exStateWithRow exAuth exMchoiceParams).1.useinfo =
      [⟨"brad@test.user", "", "test_div_id", "mChoice", "test_child_course1"⟩] ∧
    (hsblog exStateWithRow exAuth exMchoiceParams).1.mchoice = exStateWithRow.mchoice :=
  ⟨rfl, rfl, rfl⟩

/-- C6 (amended). Every validated event-endpoint request, of any event kind
and whether or not the requester is authenticated, reports log true and
appends exactly one generic-log row recording the resolved subject id, act,
div_id, event and course; kind-specific rows are written only when
authenticated — always for a timed exam, and for multiple-choice only when
no identical row already exists. -/
theorem useinfo_row_amended (st : ServerState) (auth : AuthContext)
    (params : List (String × String)) (v : Validated)
    (hv : hsblog_validate st.courses st.div_ids params = Except.ok v) :
    (hsblog st auth params).2 = ⟨true, auth.is_authenticated, none⟩ ∧
    (hsblog st auth params).1.useinfo =
      (resolve_identity st auth).2.useinfo ++
        [⟨(resolve_identity st auth).1, v.act, v.div_id, v.event, v.course⟩] ∧
    (auth.is_authenticated = false →
      (hsblog st auth params).1.mchoice = st.mchoice ∧
      (hsblog st auth params).1.timed = st.timed) ∧
    (v.write = EventWrite.generic →
      (hsblog st auth params).1.mchoice = st.mchoice ∧
      (hsblog st auth params).1.timed = st.timed) ∧
    (∀ ans corr, v.write = EventWrite.mchoice ans corr →
      (hsblog st auth params).1.timed = st.timed ∧
      (auth.is_authenticated = true →
        (hsblog st auth params).1.mchoice =
          (if (⟨auth.subject_id, ans, corr, v.div_id, v.course⟩ : MchoiceRow) ∈ st.mchoice
           then st.mchoice
           else st.mchoice ++ [⟨auth.subject_id, ans, corr, v.div_id, v.course⟩]))) ∧
    (∀ r cc ic sk tt, v.write = EventWrite.timed r cc ic sk tt →
      (hsblog st auth params).1.mchoice = st.mchoice ∧
      (auth.is_authenticated = true →
        (hsblog st auth params).1.timed =
          st.timed ++ [⟨auth.subject_id, v.course, cc, ic, sk, tt, v.div_id, r⟩])) := by
  have he := hsblog_ok st auth params v hv
  refine ⟨?_, ?_, ?_, ?_, ?_, ?_⟩
  · rw [he]
  · rw [he]
    simp [kind_write_useinfo]
  · intro hna
    rw [he, kind_write_unauth _ _ _ _ _ _ hna]
    simp [resolve_identity_mchoice, resolve_identity_timed]
  · intro hg
    rw [he, hg, kind_write_generic]
    simp [resolve_identity_mchoice, resolve_identity_timed]
  · intro ans corr hwm
    constructor
    · rw [he, hwm]
      simp [kind_write_mchoice_timed_proj, resolve_identity_timed]
    · intro hauth
      rw [he, hwm]
      rw [resolve_identity_fst_auth st auth hauth]
      rw [kind_write_mchoice_result _ _ _ _ _ _ _ hauth]
      simp [resolve_identity_mchoice]
  · intro r cc ic sk tt hwt
    constructor
    · rw [he, hwt]
      simp [kind_write_timed_mchoice_proj, resolve_identity_mchoice]
    · intro hauth
      rw [he, hwt]
      rw [resolve_identity_fst_auth st auth hauth]
      rw [kind_write_timed_result _ _ _ _ _ _ _ _ _ _ hauth]
      simp [resolve_identity_timed]

/-- Witness for C6 (amended): a validated unauthenticated generic event
appends exactly one generic-log row carrying the resolved pseudo subject
id. -/
theorem useinfo_row_amended_witness :
    (hsblog exState exAnon exGenericParams).1.useinfo =
      (resolve_identity exState exAnon).2.useinfo ++
        [⟨(resolve_identity exState exAnon).1, "xxx", "test_div_id", "xxx",
          "test_child_course1"⟩] :=
  (useinfo_row_amended exState exAnon exGenericParams
    ⟨"test_child_course1", "test_div_id", "xxx", "xxx", EventWrite.generic⟩ rfl).2.1

/-- Counterexample to C3 as stated: after two anonymous events and one
authenticated event in the one session, all three generic-log rows carry
the real subject id — the two earlier anonymous rows were rewritten rather
than left unchanged, and zero rows still carry the pseudo-id (the claim
demands exactly two) — matching `TestRunestoneApi.test_2`, which asserts
three rows for the real username after login. -/
theorem anon_identity_counterexample :
    ((hsblog (hsblog (hsblog exState exAnon exMchoiceParams).1 exAnon
        exMchoiceParams).1 exAuth exMchoiceParams).1.useinfo.map
      (fun r => r.sid)) = ["brad@test.user", "brad@test.user", "brad@test.user"] ∧
    ((hsblog (hsblog (hsblog exState exAnon exMchoiceParams).1 exAnon
        exMchoiceParams).1 exAuth exMchoiceParams).1.useinfo.filter
      (fun r => r.sid = anon_sid 0)).length = 0 :=
  ⟨rfl, rfl⟩

/-- C3 (amended). Two unauthenticated events in one fresh session produce
two generic-log rows with the identical generated pseudo-subject-id; an
event after the visitor authenticates produces a third row with the real
subject id and rewrites the two earlier anonymous rows to the real subject
id as well, so all three rows carry the real subject id. -/
theorem anon_identity_amended (st : ServerState) (a0 aU : AuthContext)
    (p1 p2 p3 : List (String × String)) (v1 v2 v3 : Validated)
    (hsa : st.session_anon = none) (hui : st.useinfo = [])
    (h0 : a0.is_authenticated = false) (hU : aU.is_authenticated = true)
    (hv1 : hsblog_validate st.courses st.div_ids p1 = Except.ok v1)
    (hv2 : hsblog_validate st.courses st.div_ids p2 = Except.ok v2)
    (hv3 : hsblog_validate st.courses st.div_ids p3 = Except.ok v3) :
    ((hsblog (hsblog st a0 p1).1 a0 p2).1).useinfo =
      [⟨anon_sid st.next_anon, v1.act, v1.div_id, v1.event, v1.course⟩,
       ⟨anon_sid st.next_anon, v2.act, v2.div_id, v2.event, v2.course⟩] ∧
    ((hsblog (hsblog (hsblog st a0 p1).1 a0 p2).1 aU p3).1).useinfo =
      [⟨aU.subject_id, v1.act, v1.div_id, v1.event, v1.course⟩,
       ⟨aU.subject_id, v2.act, v2.div_id, v2.event, v2.course⟩,
       ⟨aU.subject_id, v3.act, v3.div_id, v3.event, v3.course⟩] := by
  set p := anon_sid st.next_anon with hp
  have hid1 := resolve_identity_unauth_none st a0 h0 hsa
  have he1 := hsblog_ok st a0 p1 v1 hv1
  set S1 := (hsblog st a0 p1).1 with hS1
  have hS1c : S1.courses = st.courses := by
    rw [hS1, he1]
    simp [kind_write_courses, hid1]
  have hS1d : S1.div_ids = st.div_ids := by
    rw [hS1, he1]
    simp [kind_write_div_ids, hid1]
  have hS1u : S1.useinfo = [⟨p, v1.act, v1.div_id, v1.event, v1.course⟩] := by
    rw [hS1, he1]
    simp [kind_write_useinfo, hid1, hui]
  have hS1s : S1.session_anon = some p := by
    rw [hS1, he1]
    simp [kind_write_session_anon, hid1]
  have hv2' : hsblog_validate S1.courses S1.div_ids p2 = Except.ok v2 := by
    rw [hS1c, hS1d]
    exact hv2
  have hid2 := resolve_identity_unauth_some S1 a0 p h0 hS1s
  have he2 := hsblog_ok S1 a0 p2 v2 hv2'
  set S2 := (hsblog S1 a0 p2).1 with hS2
  have hS2c : S2.courses = st.courses := by
    rw [hS2, he2]
    simp [kind_write_courses, hid2, hS1c]
  have hS2d : S2.div_ids = st.div_ids := by
    rw [hS2, he2]
    simp [kind_write_div_ids, hid2, hS1d]
  have hS2u : S2.useinfo =
      [⟨p, v1.act, v1.div_id, v1.event, v1.course⟩,
       ⟨p, v2.act, v2.div_id, v2.event, v2.course⟩] := by
    rw [hS2, he2]
    simp [kind_write_useinfo, hid2, hS1u]
  have hS2s : S2.session_anon = some p := by
    rw [hS2, he2]
    simp [kind_write_session_anon, hid2, hS1s]
  have hv3' : hsblog_validate S2.courses S2.div_ids p3 = Except.ok v3 := by
    rw [hS2c, hS2d]
    exact hv3
  have hid3 := resolve_identity_auth_some S2 aU p hU hS2s
  have he3 := hsblog_ok S2 aU p3 v3 hv3'
  refine ⟨hS2u, ?_⟩
  rw [he3]
  simp [kind_write_useinfo, hid3, hS2u]

/-- Witness for C3 (amended): the two-anonymous-events half, at the
concrete fixture state, produces two rows carrying the generated
pseudo-subject-id. -/
theorem anon_identity_amended_witness :
    ((hsblog (hsblog exState exAnon exMchoiceParams).1 exAnon
        exMchoiceParams).1).useinfo =
      [⟨anon_sid 0, "", "test_div_id", "mChoice", "test_child_course1"⟩,
       ⟨anon_sid 0, "", "test_div_id", "mChoice", "test_child_course1"⟩] :=
  (anon_identity_amended exState exAnon exAuth exMchoiceParams exMchoiceParams
    exMchoiceParams
    ⟨"test_child_course1", "test_div_id", "", "mChoice", EventWrite.mchoice "A, B" (some false)⟩
    ⟨"test_child_course1", "test_div_id", "", "mChoice", EventWrite.mchoice "A, B" (some false)⟩
    ⟨"test_child_course1", "test_div_id", "", "mChoice", EventWrite.mchoice "A, B" (some false)⟩
    rfl rfl rfl rfl rfl rfl rfl).1

end NewServer
